import Mathlib

/-!
Shallow embedding of the RizAlert admin dashboard's statistics/aggregation
engine, two-factor admin login flow, responder/alert list mutations and
siren toggles (app/routes.py and app/models.py).  External services
(Firestore, Firebase Auth, pyotp, the Python datetime ISO parser) are
modelled as explicit parameters or assoc-list stores; Python dict/session
mutation is modelled by explicit state passing.
-/

namespace RizAlert

/-! ### Civil calendar arithmetic (models Python datetime's proleptic
Gregorian calendar; days are counted from 1970-01-01). -/

/-- Convert a day count (days since 1970-01-01) to a civil date
(year, month 1..12, day 1..31).  Standard era-based algorithm, matching
Python `datetime.date.fromordinal` shifted to the Unix epoch. -/
def civilFromDays (z0 : Int) : Int × Nat × Nat :=
  let z : Int := z0 + 719468
  let era : Int := Int.fdiv z 146097
  let doe : Nat := (z - era * 146097).toNat
  let yoe : Nat := (doe - doe / 1460 + doe / 36524 - doe / 146096) / 365
  let y : Int := (yoe : Int) + era * 400
  let doy : Nat := doe - (365 * yoe + yoe / 4 - yoe / 100)
  let mp : Nat := (5 * doy + 2) / 153
  let d : Nat := doy - (153 * mp + 2) / 5 + 1
  let m : Nat := if mp < 10 then mp + 3 else mp - 9
  (if m ≤ 2 then y + 1 else y, m, d)

/-- Convert a civil date to a day count (days since 1970-01-01). -/
def daysFromCivil (y : Int) (m d : Nat) : Int :=
  let y2 : Int := if m ≤ 2 then y - 1 else y
  let era : Int := Int.fdiv y2 400
  let yoe : Nat := (y2 - era * 400).toNat
  let mp : Nat := if m > 2 then m - 3 else m + 9
  let doy : Nat := (153 * mp + 2) / 5 + d - 1
  let doe : Nat := 365 * yoe + yoe / 4 - yoe / 100 + doy
  era * 146097 + (doe : Int) - 719468

/-- Truncate a timestamp (seconds since epoch) to the first of its month at
midnight: models `dt.replace(day=1, hour=0, minute=0, second=0, microsecond=0)`. -/
def monthFloorSec (s : Int) : Int :=
  let c := civilFromDays (Int.fdiv s 86400)
  86400 * daysFromCivil c.1 c.2.1 1

/-- Abbreviated month name, as produced by `strftime('%b')`. -/
def monthAbbrev : Nat → String
  | 1 => "Jan" | 2 => "Feb" | 3 => "Mar" | 4 => "Apr"
  | 5 => "May" | 6 => "Jun" | 7 => "Jul" | 8 => "Aug"
  | 9 => "Sep" | 10 => "Oct" | 11 => "Nov" | 12 => "Dec"
  | _ => ""

/-- Bucket label, models `month_start.strftime('%b %Y')`. -/
def monthLabel (s : Int) : String :=
  let c := civilFromDays (Int.fdiv s 86400)
  monthAbbrev c.2.1 ++ " " ++ toString c.1

/-- Year of a wall-clock timestamp in seconds, models `created_at.year`. -/
def yearOfSec (s : Int) : Int :=
  (civilFromDays (Int.fdiv s 86400)).1

/-! ### Python values stored in the `created_at` field

Firestore documents are schema-less, so the `created_at` field of a stored
emergency can be a datetime (naive or timezone-aware), a string, absent
(`None`), or any other value.  `pDt sec off` is a datetime whose *wall
clock* reading is `sec` seconds since the epoch, with `off` its UTC offset
in seconds when timezone-aware (`none` = naive); `replace(tzinfo=None)`
keeps the wall-clock reading and drops the offset. -/

inductive PyTime where
  | pNone
  | pStr (s : String)
  | pDt (sec : Int) (off : Option Int)
  | pTruthy
  | pFalsy
  deriving DecidableEq

/-- Python exception kinds raised by the aggregation code. -/
inductive PyError where
  | valueError
  | typeError
  | keyError (k : String)
  deriving DecidableEq

/-- Python truthiness of an optional string (None and "" are falsy). -/
def pyTruthy : Option String → Bool
  | none => false
  | some s => !s.isEmpty

/-- An emergency record as read by the dashboard aggregations
(routes.py `index`): only `case_type`, `status` and `created_at` are
inspected. -/
structure EmergencyRec where
  case_type : Option String := none
  status : Option String := none
  created_at : PyTime := .pNone
  deriving DecidableEq

/-! ### Resolved-rate statistics (routes.py lines 172-256)

The four per-case-type loops are textually identical up to the case-type
membership test, embedded here once with the case-type list as a
parameter.  `parse` models `datetime.fromisoformat`, returning `none` when
the Python call would raise `ValueError`; the source first applies
`.replace('Z', '+00:00')` to the string. -/

/-- Normalisation of `created_at` performed by each resolved-rate loop:
strings are parsed (raising `ValueError` on failure), timezone-aware
datetimes are stripped to their wall-clock reading, falsy values are
passed through, and any remaining truthy non-datetime value raises
`TypeError` at the `created_at >= one_month_ago` comparison.  Returns
`some wallClockSec` when the record reaches the window comparison. -/
def normCreated (parse : String → Option (Int × Option Int)) :
    PyTime → Except PyError (Option Int)
  | .pNone => .ok none
  | .pFalsy => .ok none
  | .pTruthy => .error .typeError
  | .pDt sec _ => .ok (some sec)
  | .pStr s =>
    match parse (s.replace "Z" "+00:00") with
    | none => .error .valueError
    | some dt => .ok (some dt.1)

/-- The case-type membership test of a resolved-rate loop
(`emergency.get('case_type') == NAME` or `case_type in [...]`). -/
def ctMatch (cts : List String) (e : EmergencyRec) : Bool :=
  match e.case_type with
  | some ct => cts.contains ct
  | none => false

/-- `emergency.get('status') == EmergencyStatus.RESOLVED.name`. -/
def isResolvedRec (e : EmergencyRec) : Bool :=
  e.status == some "RESOLVED"

/-- Predicate: the record is counted in the window by a resolved-rate loop. -/
def countedIn (parse : String → Option (Int × Option Int)) (cts : List String)
    (ws : Int) (e : EmergencyRec) : Bool :=
  match normCreated parse e.created_at with
  | .ok (some t) => decide (ws ≤ t) && ctMatch cts e
  | _ => false

/-- One resolved-rate loop of `index` (routes.py 172-256): scans the
records in order, returning `(resolvedCount, totalCount)` for records
whose case type is in `cts` and whose normalised timestamp is at least
`ws` (= `utcnow() - timedelta(days=30)`), or the first exception raised. -/
def resolvedRateStats (parse : String → Option (Int × Option Int))
    (cts : List String) (ws : Int) :
    List EmergencyRec → Except PyError (Nat × Nat)
  | [] => .ok (0, 0)
  | e :: rest =>
    match normCreated parse e.created_at with
    | .error err => .error err
    | .ok t? =>
      match resolvedRateStats parse cts ws rest with
      | .error err => .error err
      | .ok p =>
        match t? with
        | some t =>
          if decide (ws ≤ t) && ctMatch cts e then
            .ok ((if isResolvedRec e then p.1 + 1 else p.1), p.2 + 1)
          else .ok p
        | none => .ok p

/-- `(resolved / cases * 100) if cases > 0 else 0`, exact rational value. -/
def resolvedRate (res tot : Nat) : ℚ :=
  if tot = 0 then 0 else (res : ℚ) / (tot : ℚ) * 100

/-! ### Yearly case-type histogram (routes.py 258-304)

The `yearly_stats` dict is initialised with only the keys `Fire`, `Crime`,
`Medical` and `Disaster`; `yearly_stats['Typhoon'] += 1` and
`yearly_stats['Flood'] += 1` therefore raise `KeyError`.  The dict is
embedded as an association list and `+= 1` on a missing key as an error. -/

/-- The initial `yearly_stats` dict (routes.py 260-265). -/
def initYearly : List (String × Nat) :=
  [("Fire", 0), ("Crime", 0), ("Medical", 0), ("Disaster", 0)]

/-- `counts[k] += 1`: raises `KeyError` when `k` is not a key. -/
def incrKey : List (String × Nat) → String → Except PyError (List (String × Nat))
  | [], k => .error (.keyError k)
  | kv :: rest, k =>
    if kv.1 == k then .ok ((kv.1, kv.2 + 1) :: rest)
    else
      match incrKey rest k with
      | .ok rest2 => .ok (kv :: rest2)
      | .error err => .error err

/-- The case-type dispatch of the yearly loop (routes.py 290-301). -/
def yearlyDispatch (counts : List (String × Nat)) :
    Option String → Except PyError (List (String × Nat))
  | some "TYPHOON" => incrKey counts "Typhoon"
  | some "FIRE" => incrKey counts "Fire"
  | some "CRIME" => incrKey counts "Crime"
  | some "FLOOD" => incrKey counts "Flood"
  | some "DISASTER" => incrKey counts "Disaster"
  | some "MEDICAL" => incrKey counts "Medical"
  | _ => .ok counts

/-- Timestamp normalisation performed by the yearly loop (268-283): the
truthiness check comes first, string parsing is wrapped in try/except so
an unparsable string becomes `None`, and only datetime values survive to
`created_at.year`. -/
def yearlyNorm (parse : String → Option (Int × Option Int)) : PyTime → Option Int
  | .pNone => none
  | .pFalsy => none
  | .pTruthy => none
  | .pDt sec _ => some sec
  | .pStr s =>
    if s.isEmpty then none
    else
      match parse (s.replace "Z" "+00:00") with
      | none => none
      | some dt => some dt.1

/-- The yearly loop with the running dict threaded through. -/
def yearlyGo (parse : String → Option (Int × Option Int)) (year : Int)
    (counts : List (String × Nat)) :
    List EmergencyRec → Except PyError (List (String × Nat))
  | [] => .ok counts
  | e :: rest =>
    match yearlyNorm parse e.created_at with
    | some sec =>
      if yearOfSec sec = year then
        match yearlyDispatch counts e.case_type with
        | .ok c2 => yearlyGo parse year c2 rest
        | .error err => .error err
      else yearlyGo parse year counts rest
    | none => yearlyGo parse year counts rest

/-- `yearly_stats` computation of `index` (routes.py 258-304). -/
def yearlyStats (parse : String → Option (Int × Option Int)) (year : Int)
    (ems : List EmergencyRec) : Except PyError (List (String × Nat)) :=
  yearlyGo parse year initYearly ems

/-! ### Monthly trend (routes.py `reports_page` 1335-1356)

`current_date = datetime.now(timezone.utc)` is timezone-aware with offset
0, so wall-clock seconds coincide with the instant.  Records are compared
as instants after naive values are reinterpreted as UTC
(`replace(tzinfo=timezone.utc)`); strings and non-datetimes are skipped by
the `isinstance` guard. -/

/-- The instant (UTC seconds) a record is compared at by the monthly loop,
or `none` when the record is skipped. -/
def tsInstant : PyTime → Option Int
  | .pDt sec none => some sec
  | .pDt sec (some off) => some (sec - off)
  | _ => none

/-- The six `[month_start, month_end)` windows, oldest first: for
`i = 5,4,...,0`, `month_start` is `asOf - i*30 days` truncated to the
first of its month, `month_end` is `month_start + 32 days` truncated
likewise (routes.py 1339-1341). -/
def monthlyWindows (asOf : Int) : List (Int × Int) :=
  (List.range 6).map (fun k =>
    let i : Int := 5 - (k : Int)
    let mstart := monthFloorSec (asOf - i * 30 * 86400)
    (mstart, monthFloorSec (mstart + 32 * 86400)))

/-- `monthly_data` of `reports_page`: one `(label, count)` bucket per
window, counting the records whose instant lies in the window. -/
def monthly_data (ems : List EmergencyRec) (asOf : Int) : List (String × Nat) :=
  (monthlyWindows asOf).map (fun w =>
    (monthLabel w.1,
     (ems.filter (fun e =>
       match tsInstant e.created_at with
       | some t => decide (w.1 ≤ t) && decide (t < w.2)
       | none => false)).length))

/-! ### Stores and sessions

Firestore collections appear as association lists keyed by document id;
`storeSet` models a partial `update` of an existing document.  The Flask
session is a structure of the keys the admin auth flow touches. -/

/-- Look up a document by id in a collection. -/
def storeGet {α : Type} (store : List (String × α)) (k : String) : Option α :=
  (store.find? (fun kv => kv.1 == k)).map (fun kv => kv.2)

/-- Overwrite the document stored at id `k` (no-op when absent, matching
that the code only updates documents it has just fetched). -/
def storeSet {α : Type} (store : List (String × α)) (k : String) (v : α) :
    List (String × α) :=
  store.map (fun kv => if kv.1 == k then (kv.1, v) else kv)

/-- A user document, restricted to the fields the 2FA flow reads/writes. -/
structure UserDoc where
  role : Option String := none
  username : Option String := none
  two_factor_secret : Option String := none
  two_factor_enabled : Bool := false
  two_factor_setup_date : Option String := none
  lastLogin : Option String := none
  deriving DecidableEq

/-- The Flask session keys touched by the admin auth flow. -/
structure Session where
  logged_in : Bool := false
  user_id : Option String := none
  username : Option String := none
  email : Option String := none
  role : Option String := none
  requires_2fa_setup : Bool := false
  last_login : Option String := none
  pending_login_uid : Option String := none
  pending_login_email : Option String := none
  temp_2fa_secret : Option String := none
  deriving DecidableEq

/-! ### Admin login (routes.py `admin_login`, lines 814-937) -/

/-- Outcome of a POST to `/admin/login`: each constructor is one of the
JSON responses the route can produce.  `serverError` models the generic
`except Exception` handler (line 932), reached e.g. when
`pyotp.TOTP(None)` raises. -/
inductive LoginOutcome where
  | invalidCredentials
  | userNotFound
  | accessDenied
  | pendingSetup2FA
  | requires2FA
  | invalidOTP
  | loginSuccess
  | serverError
  deriving DecidableEq

/-- `admin_login` POST handler.  `authLookup` models
`auth.get_user_by_email` (none = `UserNotFoundError`), `emailQuery` the
username-resolution Firestore query, `verify` models
`pyotp.TOTP(secret).verify(code)`, `nowIso` the current time.  The
password is read by the source but never verified (Admin SDK limitation,
line 838), hence unused. -/
def admin_login
    (authLookup : String → Option String)
    (emailQuery : String → Option String)
    (verify : String → String → Bool)
    (nowIso : String)
    (store : List (String × UserDoc))
    (sess : Session)
    (emailIn : Option String)
    (_passwordIn : Option String)
    (two_factor_code : Option String) :
    LoginOutcome × Session × List (String × UserDoc) :=
  match emailIn with
  | none => (.serverError, sess, store)
  | some e0 =>
    let resolved : Except LoginOutcome String :=
      if !e0.isEmpty && !(e0.data.contains '@') then
        match emailQuery e0 with
        | none => .error .invalidCredentials
        | some e1 => .ok e1
      else .ok e0
    match resolved with
    | .error o => (o, sess, store)
    | .ok email =>
      if email.isEmpty then (.serverError, sess, store)
      else
        match authLookup email with
        | none => (.invalidCredentials, sess, store)
        | some uid =>
          match storeGet store uid with
          | none => (.userNotFound, sess, store)
          | some doc =>
            if !(doc.role == some "admin") then (.accessDenied, sess, store)
            else if !(pyTruthy doc.two_factor_secret) && !doc.two_factor_enabled then
              (.pendingSetup2FA,
               { sess with
                 logged_in := true
                 user_id := some uid
                 username := doc.username
                 email := some email
                 role := some "admin"
                 requires_2fa_setup := true
                 last_login := some nowIso },
               store)
            else if !(pyTruthy two_factor_code) then
              (.requires2FA,
               { sess with
                 pending_login_uid := some uid
                 pending_login_email := some email },
               store)
            else
              match doc.two_factor_secret with
              | none => (.serverError, sess, store)
              | some s =>
                if s.isEmpty then (.serverError, sess, store)
                else if verify s (two_factor_code.getD "") then
                  (.loginSuccess,
                   { sess with
                     pending_login_uid := none
                     pending_login_email := none
                     logged_in := true
                     user_id := some uid
                     username := doc.username
                     email := some email
                     role := some "admin"
                     last_login := some nowIso },
                   storeSet store uid { doc with lastLogin := some nowIso })
                else (.invalidOTP, sess, store)

/-! ### 2FA enrollment confirmation (routes.py `verify_2fa`, lines 712-757) -/

/-- Outcome of a POST to `/admin/2fa/verify`. -/
inductive Verify2FAOutcome where
  | notAuthenticated
  | notSetUp
  | invalidCode
  | success2FA
  | serverError2FA
  deriving DecidableEq

/-- `verify_2fa` handler: validates one code against the candidate secret
held in `session['temp_2fa_secret']`.  `verify` models
`pyotp.TOTP(secret).verify(code)` (a `None` code compares unequal and
yields false). -/
def verify_2fa
    (verify : String → Option String → Bool)
    (nowS : String)
    (store : List (String × UserDoc))
    (sess : Session)
    (code : Option String) :
    Verify2FAOutcome × Session × List (String × UserDoc) :=
  if !(sess.logged_in && pyTruthy sess.user_id) then
    (.notAuthenticated, sess, store)
  else if !(pyTruthy sess.temp_2fa_secret) then
    (.notSetUp, sess, store)
  else
    let s := sess.temp_2fa_secret.getD ""
    if verify s code then
      let uid := sess.user_id.getD ""
      match storeGet store uid with
      | none => (.serverError2FA, sess, store)
      | some doc =>
        (.success2FA,
         { sess with temp_2fa_secret := none },
         storeSet store uid
           { doc with
             two_factor_secret := some s
             two_factor_enabled := true
             two_factor_setup_date := some nowS })
    else (.invalidCode, sess, store)

/-! ### Responder list updates (models.py `Emergency`, lines 281-299) -/

/-- A responder record inside an emergency document. -/
structure Responder where
  responder_id : Option String := none
  response_datetime : Option String := none
  status : Option String := none
  isArrived : Option Bool := none
  deriving DecidableEq

/-- An emergency document as touched by responder updates. -/
structure EmergencyDoc where
  case_type : Option String := none
  status : Option String := none
  responders : List Responder := []
  deriving DecidableEq

/-- The loop of `update_responder_status`: the first entry whose
`responder_id` matches has `status` / `isArrived` overwritten for the
arguments that were supplied, then the loop breaks. -/
def updateRespondersList :
    List Responder → String → Option String → Option Bool → List Responder
  | [], _, _, _ => []
  | r :: rest, rid, st?, arr? =>
    if r.responder_id = some rid then
      { r with
        status := (match st? with | some s => some s | none => r.status)
        isArrived := (match arr? with | some a => some a | none => r.isArrived) }
        :: rest
    else r :: updateRespondersList rest rid st? arr?

/-- `Emergency.update_responder_status`: fetch, update the responder list
in memory, write the list back.  Returns `none` when the emergency is
absent. -/
def update_responder_status (store : List (String × EmergencyDoc))
    (eid rid : String) (st? : Option String) (arr? : Option Bool) :
    Option (List (String × EmergencyDoc)) :=
  match storeGet store eid with
  | none => none
  | some doc =>
    some (storeSet store eid
      { doc with responders := updateRespondersList doc.responders rid st? arr? })

/-! ### Alert person lists (models.py `EmergencyAlert`, lines 317-348) -/

/-- A person entry is a schema-less dict; modelled as key/value pairs. -/
def Person : Type := List (String × String)

instance : DecidableEq Person := by
  unfold Person
  infer_instance

/-- `p.get(k)` on a person entry. -/
def pget (p : Person) (k : String) : Option String :=
  (p.find? (fun kv => kv.1 == k)).map (fun kv => kv.2)

/-- An emergency-alert document's three person lists. -/
structure AlertDoc where
  people_safe : List Person := []
  people_danger : List Person := []
  people_evacuating : List Person := []
  deriving DecidableEq

/-- Read one of the three person lists by its Python name. -/
def alertGetList (a : AlertDoc) (ln : String) : List Person :=
  if ln == "people_safe" then a.people_safe
  else if ln == "people_danger" then a.people_danger
  else a.people_evacuating

/-- Write one of the three person lists by its Python name. -/
def alertSetList (a : AlertDoc) (ln : String) (l : List Person) : AlertDoc :=
  if ln == "people_safe" then { a with people_safe := l }
  else if ln == "people_danger" then { a with people_danger := l }
  else { a with people_evacuating := l }

/-- The valid list names checked by both alert-list operations. -/
def validListNames : List String :=
  ["people_safe", "people_danger", "people_evacuating"]

/-- `EmergencyAlert.add_person_to_list`: `.error` models the `ValueError`
on an invalid list name, `.ok none` an absent alert. -/
def add_person_to_list (store : List (String × AlertDoc)) (aid ln : String)
    (pd : Person) : Except String (Option (List (String × AlertDoc))) :=
  match storeGet store aid with
  | none => .ok none
  | some alert =>
    if !(validListNames.contains ln) then
      .error ("Invalid list_name: " ++ ln)
    else
      .ok (some (storeSet store aid
        (alertSetList alert ln (alertGetList alert ln ++ [pd]))))

/-- `EmergencyAlert.remove_person_from_list`: keeps the entries `p` with
`p.get('id') != person_identifier`. -/
def remove_person_from_list (store : List (String × AlertDoc)) (aid ln : String)
    (pid : String) : Except String (Option (List (String × AlertDoc))) :=
  match storeGet store aid with
  | none => .ok none
  | some alert =>
    if !(validListNames.contains ln) then
      .error ("Invalid list_name: " ++ ln)
    else
      .ok (some (storeSet store aid
        (alertSetList alert ln
          ((alertGetList alert ln).filter (fun p => !(pget p "id" == some pid))))))

/-! ### Siren toggles (routes.py `toggle_siren`, lines 2667-2702) -/

/-- The three valid siren types. -/
inductive SirenType where
  | typhoon
  | flood
  | earthquake
  deriving DecidableEq

/-- The three realtime-store flags `emergency_siren_*`; `none` models a
path that was never written (RTDB `get` returns `None`). -/
structure SirenState where
  typhoon : Option Bool := none
  flood : Option Bool := none
  earthquake : Option Bool := none
  deriving DecidableEq

/-- `db.child(path).get()` for a siren flag. -/
def getSiren (st : SirenState) : SirenType → Option Bool
  | .typhoon => st.typhoon
  | .flood => st.flood
  | .earthquake => st.earthquake

/-- `db.child(path).set(value)` for a siren flag. -/
def setSiren (st : SirenState) : SirenType → Bool → SirenState
  | .typhoon, b => { st with typhoon := some b }
  | .flood, b => { st with flood := some b }
  | .earthquake, b => { st with earthquake := some b }

/-- `toggle_siren`: reads the current flag (`None` becomes `False`),
writes its negation, and reports `(newState, previous, new)`. -/
def toggle_siren (st : SirenState) (t : SirenType) : SirenState × Bool × Bool :=
  let cur := (getSiren st t).getD false
  let nw := !cur
  (setSiren st t nw, cur, nw)

/-! ### Concrete fixtures used by witnesses and counterexamples -/

/-- An ISO parser instance on which every string fails, as
`datetime.fromisoformat` does on non-date text. -/
def parse0 : String → Option (Int × Option Int) := fun _ => none

/-- Auth adapter knowing a single admin address. -/
def authLookupA : String → Option String :=
  fun e => if e == "admin@x.com" then some "U1" else none

/-- Username-resolution query that finds nothing. -/
def emailQueryNone : String → Option String := fun _ => none

/-- A TOTP verifier that rejects every code. -/
def verifyNo : String → String → Bool := fun _ _ => false

/-- Enrollment verifier rejecting every code. -/
def verify2No : String → Option String → Bool := fun _ _ => false

/-- Enrollment verifier accepting every code. -/
def verify2Yes : String → Option String → Bool := fun _ _ => true

/-- Admin user with no second-factor secret and the enabled flag clear. -/
def adminDocNoSecret : UserDoc :=
  { role := some "admin", username := some "adm" }

/-- Admin user with no second-factor secret but the enabled flag set. -/
def adminDocFlagOnly : UserDoc :=
  { role := some "admin", username := some "adm", two_factor_enabled := true }

/-- Admin user with a provisioned second-factor secret. -/
def adminDocSecret : UserDoc :=
  { role := some "admin", username := some "adm",
    two_factor_secret := some "S3CRET", two_factor_enabled := true }

/-- Session of a logged-in admin holding a candidate enrollment secret. -/
def sessEnroll : Session :=
  { logged_in := true, user_id := some "U1", temp_2fa_secret := some "CAND" }

/-- Session after the first login step, holding pending-login state. -/
def sessPending : Session :=
  { pending_login_uid := some "U1", pending_login_email := some "admin@x.com" }

/-- One resolved medical emergency created at second 100. -/
def emsMedicalSample : List EmergencyRec :=
  [{ case_type := some "MEDICAL", status := some "RESOLVED",
     created_at := .pDt 100 none }]

/-- One medical emergency whose `created_at` is an unparsable string. -/
def emsBadString : List EmergencyRec :=
  [{ case_type := some "MEDICAL", status := some "RESOLVED",
     created_at := .pStr "not-a-date" }]

/-- One typhoon emergency created on 2026-03-01 (UTC). -/
def emsTyphoon2026 : List EmergencyRec :=
  [{ case_type := some "TYPHOON", status := some "PENDING",
     created_at := .pDt 1772323200 none }]

/-- One fire emergency created on 2025-12-15 (UTC). -/
def emsDec2025 : List EmergencyRec :=
  [{ case_type := some "FIRE", created_at := .pDt 1765756800 none }]

/-- A record with an absent `created_at`. -/
def recNoTime : EmergencyRec :=
  { case_type := some "FIRE", status := some "PENDING" }

/-- Responder R1, in progress, not yet arrived. -/
def respSampleA : Responder :=
  { responder_id := some "R1", response_datetime := some "2025-01-01T00:00:00",
    status := some "IN_PROGRESS", isArrived := some false }

/-- Responder R2, pending. -/
def respSampleB : Responder :=
  { responder_id := some "R2", status := some "PENDING" }

/-- An emergency holding responders R1 and R2. -/
def emDocSample : EmergencyDoc :=
  { case_type := some "MEDICAL", status := some "PENDING",
    responders := [respSampleA, respSampleB] }

/-! ## Theorems -/

/-- Helper: when a resolved-rate scan succeeds, the two counters are the
declarative counts of in-window matching records and of in-window matching
resolved records. -/
theorem resolvedRateStats_ok_spec
    (parse : String → Option (Int × Option Int)) (cts : List String) (ws : Int) :
    ∀ ems res tot, resolvedRateStats parse cts ws ems = .ok (res, tot) →
      res = ems.countP (fun e => countedIn parse cts ws e && isResolvedRec e) ∧
      tot = ems.countP (fun e => countedIn parse cts ws e) := by
  intro ems
  induction ems with
  | nil =>
    intro res tot h
    unfold resolvedRateStats at h
    rw [Except.ok.injEq, Prod.mk.injEq] at h
    obtain ⟨h1, h2⟩ := h
    simp [← h1, ← h2]
  | cons e rest ih =>
    intro res tot h
    unfold resolvedRateStats at h
    cases hn : normCreated parse e.created_at with
    | error err => rw [hn] at h; exact absurd h (by simp)
    | ok t? =>
      rw [hn] at h
      cases hr : resolvedRateStats parse cts ws rest with
      | error err => rw [hr] at h; exact absurd h (by simp)
      | ok p =>
        rw [hr] at h
        obtain ⟨res0, tot0⟩ := p
        obtain ⟨ih1, ih2⟩ := ih res0 tot0 hr
        cases t? with
        | none =>
          dsimp only at h
          rw [Except.ok.injEq, Prod.mk.injEq] at h
          have hc : countedIn parse cts ws e = false := by
            simp [countedIn, hn]
          simp [List.countP_cons, hc, ← h.1, ← h.2, ih1, ih2]
        | some t =>
          dsimp only at h
          have hc : countedIn parse cts ws e
              = (decide (ws ≤ t) && ctMatch cts e) := by
            simp [countedIn, hn]
          by_cases hw : (decide (ws ≤ t) && ctMatch cts e) = true
          · rw [if_pos hw] at h
            rw [Except.ok.injEq, Prod.mk.injEq] at h
            obtain ⟨h1, h2⟩ := h
            by_cases hres : isResolvedRec e = true
            · rw [if_pos hres] at h1
              simp [List.countP_cons, hc, hw, hres, ← h1, ← h2, ih1, ih2]
            · have hres2 : isResolvedRec e = false := by simpa using hres
              rw [if_neg hres] at h1
              simp [List.countP_cons, hc, hw, hres2, ← h1, ← h2, ih1, ih2]
          · have hw2 : (decide (ws ≤ t) && ctMatch cts e) = false := by
              simpa using hw
            rw [if_neg hw] at h
            rw [Except.ok.injEq, Prod.mk.injEq] at h
            simp [List.countP_cons, hc, hw2, ← h.1, ← h.2, ih1, ih2]

/-- Claim C4: whenever a resolved-rate scan over a snapshot returns, the
rate is `resolvedCount/totalCount * 100` over the records whose case type
matches and whose normalised creation timestamp lies in the window, lies
in `[0, 100]`, and is exactly `0` when `totalCount = 0`. -/
theorem c4_resolved_rate_bounds
    (parse : String → Option (Int × Option Int)) (cts : List String) (ws : Int)
    (ems : List EmergencyRec) (res tot : Nat)
    (h : resolvedRateStats parse cts ws ems = .ok (res, tot)) :
    (0 ≤ resolvedRate res tot ∧ resolvedRate res tot ≤ 100)
    ∧ res = ems.countP (fun e => countedIn parse cts ws e && isResolvedRec e)
    ∧ tot = ems.countP (fun e => countedIn parse cts ws e)
    ∧ resolvedRate res tot
        = (if tot = 0 then 0 else (res : ℚ) / (tot : ℚ) * 100)
    ∧ (tot = 0 → resolvedRate res tot = 0) := by
  obtain ⟨h1, h2⟩ := resolvedRateStats_ok_spec parse cts ws ems res tot h
  have hle : res ≤ tot := by
    rw [h1, h2]
    exact List.countP_mono_left (by intro a _ hpa; exact (Bool.and_elim_left hpa))
  refine ⟨⟨?_, ?_⟩, h1, h2, rfl, ?_⟩
  · unfold resolvedRate
    by_cases h0 : tot = 0
    · simp [h0]
    · rw [if_neg h0]
      positivity
  · unfold resolvedRate
    by_cases h0 : tot = 0
    · simp [h0]
    · rw [if_neg h0]
      have htpos : (0 : ℚ) < (tot : ℚ) := by
        exact_mod_cast Nat.pos_of_ne_zero h0
      have hdiv : (res : ℚ) / (tot : ℚ) ≤ 1 := by
        rw [div_le_one htpos]
        exact_mod_cast hle
      calc (res : ℚ) / (tot : ℚ) * 100 ≤ 1 * 100 := by
            exact mul_le_mul_of_nonneg_right hdiv (by norm_num)
        _ = 100 := by norm_num
  · intro h0
    simp [resolvedRate, h0]

/-- Claim C4 witness: a concrete snapshot on which the scan succeeds and
the bounds hold. -/
theorem c4_witness :
    resolvedRateStats parse0 ["MEDICAL"] 0 emsMedicalSample = .ok (1, 1)
    ∧ (0 ≤ resolvedRate 1 1 ∧ resolvedRate 1 1 ≤ 100) :=
  ⟨rfl, (c4_resolved_rate_bounds parse0 ["MEDICAL"] 0 emsMedicalSample 1 1 rfl).1⟩

/-- Claim C5 counterexample: a snapshot holding a single record whose
`created_at` is an unparsable string makes the resolved-rate computation
raise `ValueError` (no try/except around `fromisoformat` at routes.py
line 178), instead of completing with the record not counted. -/
theorem c5_counterexample :
    resolvedRateStats parse0 ["MEDICAL"] 0 emsBadString
      = .error .valueError := by
  rfl

/-- Claim C5 (amended): the yearly histogram and the monthly trend treat
records with an absent, falsy, non-datetime or unparsable `created_at` as
not counted, without raising; the resolved-rate computation skips an
absent `created_at` but raises `ValueError` on an unparsable string and
`TypeError` on a truthy non-datetime value. -/
theorem c5_malformed_timestamp_handling :
    (∀ (parse : String → Option (Int × Option Int)) (year : Int)
        (e : EmergencyRec) (ems : List EmergencyRec),
      (e.created_at = .pNone ∨ e.created_at = .pFalsy ∨ e.created_at = .pTruthy
        ∨ ∃ s, e.created_at = .pStr s
            ∧ (s.isEmpty = true ∨ parse (s.replace "Z" "+00:00") = none)) →
      yearlyStats parse year (e :: ems) = yearlyStats parse year ems)
    ∧ (∀ (ems : List EmergencyRec) (asOf : Int) (e : EmergencyRec),
      tsInstant e.created_at = none →
      monthly_data (e :: ems) asOf = monthly_data ems asOf)
    ∧ (∀ (parse : String → Option (Int × Option Int)) (cts : List String)
        (ws : Int) (e : EmergencyRec) (ems : List EmergencyRec),
      e.created_at = .pNone →
      resolvedRateStats parse cts ws (e :: ems)
        = resolvedRateStats parse cts ws ems)
    ∧ (∀ (parse : String → Option (Int × Option Int)) (cts : List String)
        (ws : Int) (e : EmergencyRec) (ems : List EmergencyRec) (s : String),
      e.created_at = .pStr s → parse (s.replace "Z" "+00:00") = none →
      resolvedRateStats parse cts ws (e :: ems) = .error .valueError)
    ∧ (∀ (parse : String → Option (Int × Option Int)) (cts : List String)
        (ws : Int) (e : EmergencyRec) (ems : List EmergencyRec),
      e.created_at = .pTruthy →
      resolvedRateStats parse cts ws (e :: ems) = .error .typeError) := by
  refine ⟨?_, ?_, ?_, ?_, ?_⟩
  · intro parse year e ems hbad
    have hn : yearlyNorm parse e.created_at = none := by
      rcases hbad with h | h | h | ⟨s, h, hs⟩
      · simp [yearlyNorm, h]
      · simp [yearlyNorm, h]
      · simp [yearlyNorm, h]
      · rcases hs with hs | hs
        · simp [yearlyNorm, h, hs]
        · simp [yearlyNorm, h, hs]
    show yearlyGo parse year initYearly (e :: ems)
        = yearlyGo parse year initYearly ems
    conv_lhs => rw [yearlyGo, hn]
  · intro ems asOf e hts
    unfold monthly_data
    congr 1
    funext w
    rw [List.filter_cons]
    simp [hts]
  · intro parse cts ws e ems hna
    cases hr : resolvedRateStats parse cts ws ems with
    | error err => simp [resolvedRateStats, normCreated, hna, hr]
    | ok p => simp [resolvedRateStats, normCreated, hna, hr]
  · intro parse cts ws e ems s hstr hparse
    simp [resolvedRateStats, normCreated, hstr, hparse]
  · intro parse cts ws e ems htr
    simp [resolvedRateStats, normCreated, htr]

/-- Claim C5 witness: skipping a record with an absent timestamp at a
concrete input. -/
theorem c5_witness :
    recNoTime.created_at = PyTime.pNone
    ∧ resolvedRateStats parse0 ["FIRE"] 0 (recNoTime :: emsMedicalSample)
        = resolvedRateStats parse0 ["FIRE"] 0 emsMedicalSample :=
  ⟨rfl, c5_malformed_timestamp_handling.2.2.1 parse0 ["FIRE"] 0
    recNoTime emsMedicalSample rfl⟩

/-- Claim C6: a typhoon emergency created in the target year makes the
yearly histogram raise `KeyError('Typhoon')`, because the `yearly_stats`
dict is initialised without the `Typhoon` (and `Flood`) keys
(routes.py 260-265) while the scan increments them (lines 290-297); the
claim that every display label is counted without failing is violated. -/
theorem c6_yearly_typhoon_keyerror :
    yearlyStats parse0 2026 emsTyphoon2026 = .error (.keyError "Typhoon")
    ∧ initYearly.find? (fun kv => kv.1 == "Typhoon") = none := by
  exact ⟨rfl, rfl⟩

/-- Claim C7 counterexample: with `asOf` = 2026-03-01 UTC, the windows at
positions 2 and 3 are both December 2025 (stepping back 90 and 60 days
from March 1 both truncate to December 1), so the single record created
2025-12-15 is counted in two buckets: windows overlap, a month (February)
is skipped, and the record is not counted in exactly one bucket. -/
theorem c7_counterexample :
    (monthlyWindows 1772323200)[2]? = (monthlyWindows 1772323200)[3]?
    ∧ ((monthly_data emsDec2025 1772323200).map Prod.snd).sum = 2
    ∧ emsDec2025.length = 1 := by
  exact ⟨rfl, rfl, rfl⟩

/-- Claim C7 (amended): the monthly trend produces exactly six buckets
(monthsBack is hard-coded to 6), oldest window first, and each bucket
counts precisely the records whose instant lies in its half-open window;
but since window starts are derived by stepping back multiples of 30 days
and truncating to the first of the month, consecutive windows may
duplicate or skip a calendar month, so a record may be counted in more
than one bucket. -/
theorem c7_monthly_buckets (ems : List EmergencyRec) (asOf : Int) :
    (monthly_data ems asOf).length = 6
    ∧ ∀ k : Nat, (monthly_data ems asOf)[k]?
        = ((monthlyWindows asOf)[k]?).map
            (fun w => (monthLabel w.1,
              ems.countP (fun e =>
                match tsInstant e.created_at with
                | some t => decide (w.1 ≤ t) && decide (t < w.2)
                | none => false))) := by
  constructor
  · rfl
  · intro k
    simp [monthly_data, List.getElem?_map, List.countP_eq_length_filter]

/-- Claim C1 counterexample: an admin document with no stored
second-factor secret but a truthy `two_factor_enabled` flag does not reach
the pending-setup outcome — the guard at routes.py line 866 requires both
`not two_factor_secret` and `not two_factor_enabled` — so credential
submission answers "2FA code required" instead. -/
theorem c1_counterexample :
    adminDocFlagOnly.two_factor_secret = none
    ∧ (admin_login authLookupA emailQueryNone verifyNo "now"
        [("U1", adminDocFlagOnly)] {} (some "admin@x.com") (some "pw") none).1
        = .requires2FA
    ∧ LoginOutcome.requires2FA ≠ LoginOutcome.pendingSetup2FA := by
  exact ⟨rfl, rfl, by decide⟩

/-- Claim C1 (amended): for every admin account whose stored document has
no (truthy) second-factor secret AND whose two-factor-enabled flag is
falsy, a successful credential submission yields the pending-setup
outcome: a session flagged as requiring 2FA setup is created and the user
store is untouched. -/
theorem c1_pending_setup_on_unprovisioned_account
    (authLookup emailQuery : String → Option String)
    (verify : String → String → Bool) (nowIso : String)
    (store : List (String × UserDoc)) (sess : Session)
    (e uid : String) (doc : UserDoc) (pw code? : Option String)
    (h1 : e.data.contains '@' = true)
    (h2 : e.isEmpty = false)
    (h3 : authLookup e = some uid)
    (h4 : storeGet store uid = some doc)
    (h5 : doc.role = some "admin")
    (h6 : pyTruthy doc.two_factor_secret = false)
    (h7 : doc.two_factor_enabled = false) :
    admin_login authLookup emailQuery verify nowIso store sess
        (some e) pw code?
      = (.pendingSetup2FA,
         { sess with
           logged_in := true
           user_id := some uid
           username := doc.username
           email := some e
           role := some "admin"
           requires_2fa_setup := true
           last_login := some nowIso },
         store) := by
  have h1m : '@' ∈ e.data := by simpa using h1
  unfold admin_login
  simp [h1m, h2, h3, h4, h5, h6, h7]

/-- Claim C1 witness: the amended statement at a concrete account with
neither a secret nor the enabled flag. -/
theorem c1_witness :
    (pyTruthy adminDocNoSecret.two_factor_secret = false
      ∧ adminDocNoSecret.two_factor_enabled = false)
    ∧ admin_login authLookupA emailQueryNone verifyNo "now"
        [("U1", adminDocNoSecret)] {} (some "admin@x.com") (some "pw") none
      = (.pendingSetup2FA,
         { ({} : Session) with
           logged_in := true
           user_id := some "U1"
           username := adminDocNoSecret.username
           email := some "admin@x.com"
           role := some "admin"
           requires_2fa_setup := true
           last_login := some "now" },
         [("U1", adminDocNoSecret)]) :=
  ⟨⟨rfl, rfl⟩,
   c1_pending_setup_on_unprovisioned_account authLookupA emailQueryNone
     verifyNo "now" [("U1", adminDocNoSecret)] {} "admin@x.com" "U1"
     adminDocNoSecret (some "pw") none rfl rfl rfl rfl rfl rfl rfl⟩

/-- Claim C2: for an admin account with a stored (truthy) second-factor
secret, submitting an incorrect one-time code yields the invalid-OTP
rejection and is atomic: the session (including the pending-login keys)
and the user store — in particular the stored secret and enabled flag —
are returned unchanged, so the attempt can be retried. -/
theorem c2_invalid_otp_atomic
    (authLookup emailQuery : String → Option String)
    (verify : String → String → Bool) (nowIso : String)
    (store : List (String × UserDoc)) (sess : Session)
    (e uid s c : String) (doc : UserDoc) (pw : Option String)
    (h1 : e.data.contains '@' = true)
    (h2 : e.isEmpty = false)
    (h3 : authLookup e = some uid)
    (h4 : storeGet store uid = some doc)
    (h5 : doc.role = some "admin")
    (h6 : doc.two_factor_secret = some s)
    (h7 : s.isEmpty = false)
    (h8 : c.isEmpty = false)
    (h9 : verify s c = false) :
    admin_login authLookup emailQuery verify nowIso store sess
        (some e) pw (some c)
      = (.invalidOTP, sess, store) := by
  have h1m : '@' ∈ e.data := by simpa using h1
  unfold admin_login
  simp [h1m, h2, h3, h4, h5, h6, h7, h8, h9, pyTruthy]

/-- Claim C2 witness: a rejected code at a concrete account, with the
pending-login session returned exactly as it was. -/
theorem c2_witness :
    (adminDocSecret.two_factor_secret = some "S3CRET"
      ∧ verifyNo "S3CRET" "123456" = false)
    ∧ admin_login authLookupA emailQueryNone verifyNo "now"
        [("U1", adminDocSecret)] sessPending
        (some "admin@x.com") (some "pw") (some "123456")
      = (.invalidOTP, sessPending, [("U1", adminDocSecret)]) :=
  ⟨⟨rfl, rfl⟩,
   c2_invalid_otp_atomic authLookupA emailQueryNone verifyNo "now"
     [("U1", adminDocSecret)] sessPending "admin@x.com" "U1" "S3CRET"
     "123456" adminDocSecret (some "pw") rfl rfl rfl rfl rfl rfl rfl rfl rfl⟩

/-- Claim C3 counterexample: a failed enrollment code does NOT discard the
candidate secret — `session.pop('temp_2fa_secret')` only happens in the
success branch (routes.py line 742) — so the session still holds the
candidate and a retry does not need a fresh `beginEnrollment`. -/
theorem c3_counterexample :
    verify_2fa verify2No "now" [("U1", adminDocSecret)] sessEnroll
        (some "000000")
      = (.invalidCode, sessEnroll, [("U1", adminDocSecret)])
    ∧ sessEnroll.temp_2fa_secret = some "CAND"
    ∧ (verify_2fa verify2No "now" [("U1", adminDocSecret)] sessEnroll
        (some "000000")).2.1.temp_2fa_secret ≠ none := by
  exact ⟨rfl, rfl, by decide⟩

/-- Claim C3 (amended): for a logged-in session holding a candidate
secret for an existing account, a code that verifies against the
candidate persists the secret and the enabled flag to the account and
clears the candidate from the session; a code that fails verification is
rejected with session and store unchanged, the candidate secret being
retained for a retry (not discarded). -/
theorem c3_confirm_enrollment_branches
    (v : String → Option String → Bool) (nowS : String)
    (store : List (String × UserDoc)) (sess : Session)
    (code : Option String) (u s : String) (doc : UserDoc)
    (h1 : sess.logged_in = true)
    (h2 : sess.user_id = some u)
    (h3 : u.isEmpty = false)
    (h4 : sess.temp_2fa_secret = some s)
    (h5 : s.isEmpty = false)
    (h6 : storeGet store u = some doc) :
    (v s code = true →
      verify_2fa v nowS store sess code
        = (.success2FA,
           { sess with temp_2fa_secret := none },
           storeSet store u
             { doc with
               two_factor_secret := some s
               two_factor_enabled := true
               two_factor_setup_date := some nowS }))
    ∧ (v s code = false →
      verify_2fa v nowS store sess code = (.invalidCode, sess, store)) := by
  constructor
  · intro hv
    unfold verify_2fa
    simp [h1, h2, h3, h4, h5, h6, hv, pyTruthy]
  · intro hv
    unfold verify_2fa
    simp [h1, h2, h3, h4, h5, h6, hv, pyTruthy]

/-- Claim C3 witness: a successful confirmation at a concrete session
persists the candidate and clears it from the session. -/
theorem c3_witness :
    (sessEnroll.temp_2fa_secret = some "CAND"
      ∧ verify2Yes "CAND" (some "111111") = true)
    ∧ verify_2fa verify2Yes "now" [("U1", adminDocSecret)] sessEnroll
        (some "111111")
      = (.success2FA,
         { sessEnroll with temp_2fa_secret := none },
         storeSet [("U1", adminDocSecret)] "U1"
           { adminDocSecret with
             two_factor_secret := some "CAND"
             two_factor_enabled := true
             two_factor_setup_date := some "now" }) :=
  ⟨⟨rfl, rfl⟩,
   (c3_confirm_enrollment_branches verify2Yes "now" [("U1", adminDocSecret)]
     sessEnroll (some "111111") "U1" "CAND" adminDocSecret
     rfl rfl rfl rfl rfl rfl).1 rfl⟩

/-- Claim C8: adding `(userId, U1)` to an empty `people_safe` list and
then removing `"U1"` does NOT return the list to empty: the removal
filter compares `p.get('id')` (models.py line 345) while person entries
carry the identifier under `userId` (as every reader in routes.py does),
so the entry's `id` lookup yields `None`, never matches, and the entry
survives. -/
theorem c8_remove_by_userid_is_noop :
    add_person_to_list [("A", {})] "A" "people_safe" [("userId", "U1")]
      = .ok (some [("A", { people_safe := [[("userId", "U1")]] })])
    ∧ remove_person_from_list
        [("A", { people_safe := [[("userId", "U1")]] })] "A" "people_safe" "U1"
      = .ok (some [("A", { people_safe := [[("userId", "U1")]] })])
    ∧ ([[("userId", "U1")]] : List Person) ≠ [] := by
  refine ⟨rfl, rfl, ?_⟩
  intro h
  exact absurd h (by simp)

/-- Helper for claim C9: the update loop rewrites exactly the first entry
whose `responder_id` matches, touching only the supplied fields, and
returns every other entry unchanged. -/
theorem updateRespondersList_frame (rid : String) (v : Bool) :
    ∀ rs : List Responder, (∃ r ∈ rs, r.responder_id = some rid) →
      ∃ pre r post,
        rs = pre ++ r :: post
        ∧ (∀ q ∈ pre, q.responder_id ≠ some rid)
        ∧ r.responder_id = some rid
        ∧ updateRespondersList rs rid none (some v)
            = pre ++ { r with isArrived := some v } :: post := by
  intro rs
  induction rs with
  | nil => rintro ⟨r, hr, _⟩; cases hr
  | cons a rest ih =>
    intro hmem
    by_cases ha : a.responder_id = some rid
    · refine ⟨[], a, rest, rfl, by simp, ha, ?_⟩
      simp [updateRespondersList, ha]
    · have hmem2 : ∃ r ∈ rest, r.responder_id = some rid := by
        rcases hmem with ⟨r, hr, hrid⟩
        rcases List.mem_cons.mp hr with h | h
        · rw [h] at hrid; exact absurd hrid ha
        · exact ⟨r, h, hrid⟩
      rcases ih hmem2 with ⟨pre, r, post, heq, hpre, hrid, hupd⟩
      refine ⟨a :: pre, r, post, by simp [heq], ?_, hrid, ?_⟩
      · intro q hq
        rcases List.mem_cons.mp hq with h | h
        · rw [h]; exact ha
        · exact hpre q h
      · simp [updateRespondersList, ha, hupd]

/-- Claim C9: for every stored emergency containing a responder entry with
the given id, `update_responder_status` called with only an `isArrived`
value rewrites precisely that (first matching) entry, setting `isArrived`
and keeping its `status`, `responder_id` and `response_datetime` — the
record update touches no other field — while every other responder entry
and the rest of the document are unchanged. -/
theorem c9_update_responder_frame
    (store : List (String × EmergencyDoc)) (eid rid : String) (v : Bool)
    (doc : EmergencyDoc)
    (hdoc : storeGet store eid = some doc)
    (hmem : ∃ r ∈ doc.responders, r.responder_id = some rid) :
    ∃ pre r post,
      doc.responders = pre ++ r :: post
      ∧ (∀ q ∈ pre, q.responder_id ≠ some rid)
      ∧ r.responder_id = some rid
      ∧ update_responder_status store eid rid none (some v)
          = some (storeSet store eid
              { doc with responders := pre ++ { r with isArrived := some v } :: post }) := by
  rcases updateRespondersList_frame rid v doc.responders hmem with
    ⟨pre, r, post, heq, hpre, hrid, hupd⟩
  refine ⟨pre, r, post, heq, hpre, hrid, ?_⟩
  unfold update_responder_status
  rw [hdoc]
  dsimp only
  rw [hupd]

/-- Claim C9 witness: flipping `isArrived` for responder R1 at a concrete
emergency with two responders. -/
theorem c9_witness :
    (storeGet [("E1", emDocSample)] "E1" = some emDocSample
      ∧ ∃ r ∈ emDocSample.responders, r.responder_id = some "R1")
    ∧ ∃ pre r post,
        emDocSample.responders = pre ++ r :: post
        ∧ (∀ q ∈ pre, q.responder_id ≠ some "R1")
        ∧ r.responder_id = some "R1"
        ∧ update_responder_status [("E1", emDocSample)] "E1" "R1" none (some true)
            = some (storeSet [("E1", emDocSample)] "E1"
                { emDocSample with
                  responders := pre ++ { r with isArrived := some true } :: post }) :=
  ⟨⟨rfl, by decide⟩,
   c9_update_responder_frame [("E1", emDocSample)] "E1" "R1" true
     emDocSample rfl (by decide)⟩

/-- Claim C10: for each of the three siren types, the toggle writes the
boolean negation of the currently stored flag, with an absent flag read
as `False` (so toggling an unset siren activates it storing `True`), and
two consecutive toggles leave the stored flag at the original flag value
(absent read as `False`). -/
theorem c10_toggle_siren_involutive (st : SirenState) (t : SirenType) :
    (toggle_siren st t).2.2 = !((getSiren st t).getD false)
    ∧ getSiren (toggle_siren st t).1 t
        = some (!((getSiren st t).getD false))
    ∧ getSiren (toggle_siren (toggle_siren st t).1 t).1 t
        = some ((getSiren st t).getD false) := by
  obtain ⟨a, b, c⟩ := st
  cases t <;> simp [toggle_siren, getSiren, setSiren]

end RizAlert
